import Mathlib

/-!
# Verification of the hueshortcut device-state cache and toggle engine

A shallow embedding of `src/hueshortcut.py`: the global `device_states`
dictionary, `initialize_state`, `toggle_device`, the registration polling
loop `register_hue_username`, and the hotkey-binding loop of `main`.

Network effects are modelled by passing the outcome of each HTTP
interaction (either "an exception was raised by the request or by parsing
the body" or "a parsed JSON value") as an explicit argument; the Python
functions are then translated branch by branch.
-/

namespace Hueshortcut

/-! ## The device-state cache

`device_states` is a Python dict from device id to bool, read with
`device_states.get(device_id, False)` and written by item assignment. -/

/-- The `device_states` dictionary: `none` models an absent key. -/
def Cache : Type := String → Option Bool

/-- `device_states.get(device_id, False)`. -/
def cacheGet (c : Cache) (device_id : String) : Bool :=
  (c device_id).getD false

/-- `device_states[device_id] = b`. -/
def cacheWrite (c : Cache) (device_id : String) (b : Bool) : Cache :=
  fun k => if k = device_id then some b else c k

/-- The dictionary at process start: empty, every key absent. -/
def emptyCache : Cache := fun _ => none

/-! ## Parsed bridge responses

A device read (`GET /api/{u}/lights/{id}`) parses to a JSON object; the
code accesses `data["state"].get("on", False)`.  `state = none` models a
body without a `"state"` key (the subscript raises `KeyError`);
`on = none` models a `"state"` object without an `"on"` key (`.get`
returns the default `False` without raising). -/

/-- The `"state"` sub-object of a parsed device response.  `onKey`
models its `"on"` entry (`on` is a reserved token in Lean). -/
structure StateObj where
  onKey : Option Bool
  deriving DecidableEq, Repr

/-- A parsed device-response body, as far as the code inspects it. -/
structure DeviceData where
  state : Option StateObj
  deriving DecidableEq, Repr

/-- `data["state"].get("on", False)`: `KeyError` (modelled as
`Except.error`) when the `"state"` key is absent, otherwise the `"on"`
value defaulting to `false`. -/
def readOn (d : DeviceData) : Except Unit Bool :=
  match d.state with
  | none => Except.error ()
  | some s => Except.ok (s.onKey.getD false)

/-- Outcome of a device-read request (`requests.get` + `.json()`):
`exc` when the request or the body parse raised, otherwise the parsed
body. -/
inductive GetOutcome where
  | exc
  | data (d : DeviceData)
  deriving DecidableEq, Repr

/-- Parsed JSON body of the PUT response. `toggle_device` only passes it
to `logging.debug`; it never inspects it, so an error object or any
other body is as good as an acknowledgement. -/
inductive HueBody where
  | successAck
  | errorObj (description : String)
  | other
  deriving DecidableEq, Repr

/-- A completed PUT: HTTP status code and parsed body.  The code calls
neither `raise_for_status` nor any status check, and ignores the body. -/
structure PutResponse where
  status : Nat
  body : HueBody
  deriving DecidableEq, Repr

/-- Outcome of `requests.put(command_url, json=payload)` followed by
`res.json()`: `exc` when either raised, otherwise the response. -/
inductive PutOutcome where
  | exc
  | resp (r : PutResponse)
  deriving DecidableEq, Repr

/-! ## `initialize_state` (seeding, source lines 223-237)

```
try:
    res = requests.get(state_url)
    data = res.json()
    state = data["state"].get("on", False)
    device_states[device_id] = state
except Exception:
    device_states[device_id] = False
```
-/

/-- `initialize_state(bridge_ip, username, device_id)` with the outcome
of its GET passed explicitly; returns the updated cache. -/
def initialize_state (fetch : GetOutcome) (device_id : String) (c : Cache) : Cache :=
  match fetch with
  | GetOutcome.exc => cacheWrite c device_id false
  | GetOutcome.data d =>
    match readOn d with
    | Except.error _ => cacheWrite c device_id false
    | Except.ok b => cacheWrite c device_id b

/-! ## `toggle_device` (source lines 239-261)

```
current_state = device_states.get(device_id, False)
new_state = not current_state
try:
    res = requests.put(command_url, json=payload)
    logging.debug("Response from bridge: %s", res.json())
    device_states[device_id] = new_state
    confirm_res = requests.get(confirm_url)
    confirm_data = confirm_res.json()
    confirmed_state = confirm_data["state"].get("on", False)
    logging.info("Confirmed state for device %s: %s", ...)
except Exception:
    logging.exception(...)
```

The confirmed state is computed and logged but never written back to
`device_states`; a `KeyError` from `confirm_data["state"]` lands in the
same `except` block, after the optimistic write. -/

/-- `toggle_device` with the outcomes of its PUT and its confirmation GET
passed explicitly; returns the updated cache. -/
def toggle_device (put : PutOutcome) (confirm : GetOutcome)
    (device_id : String) (c : Cache) : Cache :=
  let current_state := cacheGet c device_id
  let new_state := !current_state
  match put with
  | PutOutcome.exc => c
  | PutOutcome.resp _ =>
    let c1 := cacheWrite c device_id new_state
    match confirm with
    | GetOutcome.exc => c1
    | GetOutcome.data d =>
      match readOn d with
      | Except.error _ => c1
      | Except.ok _confirmed_state => c1

/-- A reliable bridge's confirmation read: the commanded value reported
back in a well-formed body. -/
def reliableConfirm (b : Bool) : GetOutcome :=
  GetOutcome.data ⟨some ⟨some b⟩⟩

/-- A reliable bridge's PUT outcome: status 200, success body. -/
def reliablePut : PutOutcome :=
  PutOutcome.resp ⟨200, HueBody.successAck⟩

/-- `n` sequential `toggle_device` calls on one device against a reliable
bridge: every PUT succeeds and every confirmation read reports the
commanded value. -/
def toggleReliableN (device_id : String) : Nat → Cache → Cache
  | 0, c => c
  | n + 1, c =>
      toggleReliableN device_id n
        (toggle_device reliablePut (reliableConfirm (!cacheGet c device_id)) device_id c)

/-! ## `register_hue_username` (source lines 35-62)

```
start_time = time.time()
while time.time() - start_time < timeout:
    try:
        response = requests.post(url, json=payload, timeout=5)
        result = response.json()
        if isinstance(result, list) and "success" in result[0]:
            return result[0]["success"]["username"]
        else:
            error = result[0].get("error", {}).get("description", ...)
            logging.warning(...)
    except Exception:
        logging.exception(...)
    time.sleep(2)
return None
```

Each iteration's outcome is one of: the request or the parse raised
(`exc`), the parsed body was anything but a success list (a one-element
list with an error object, a non-list, …) — logged and ignored
(`failure`), or a success list `[{"success": {"username": u}}]`
(`success u`).  Time is modelled by an explicit `elapsed` counter: the
request of iteration `i` takes `req i` seconds and the trailing
`time.sleep(2)` adds `2`, so a non-returning iteration advances the
clock by `req i + 2`. -/

/-- Outcome of one registration poll iteration. -/
inductive RegResponse where
  | exc
  | failure (description : String)
  | success (username : String)
  deriving DecidableEq, Repr

/-- `true` exactly on the branch `isinstance(result, list) and "success"
in result[0]` that returns from the loop. -/
def regSuccess : RegResponse → Bool
  | RegResponse.success _ => true
  | _ => false

/-- The polling loop of `register_hue_username`, from iteration `i` at
clock `elapsed`; returns the result (`none` models the Python `None`)
paired with the clock value at the return point. -/
def regLoop (resp : Nat → RegResponse) (req : Nat → Nat)
    (timeout : Nat) (i : Nat) (elapsed : Nat) : Option String × Nat :=
  if elapsed < timeout then
    match resp i with
    | RegResponse.success u => (some u, elapsed + req i)
    | _ => regLoop resp req timeout (i + 1) (elapsed + (req i + 2))
  else (none, elapsed)
termination_by timeout - elapsed
decreasing_by omega

/-- `register_hue_username(bridge_ip, device_type, timeout)`: the loop
started at iteration `0`, clock `0`.  The Python default for `timeout`
is `30`. -/
def register_hue_username (resp : Nat → RegResponse) (req : Nat → Nat)
    (timeout : Nat) : Option String × Nat :=
  regLoop resp req timeout 0 0

/-! ## The binding loop of `main` (source lines 300-309)

```
for device in devices:
    device_id = device["device_id"]
    initialize_state(bridge_ip, username, device_id)
    hotkey = device["hotkey"]
    logging.info("Registering hotkey %s for device %s (%s)", ...)
    keyboard.add_hotkey(hotkey, lambda device_id=device_id: toggle_device(...))
```

The loop body registers every binding unconditionally; it contains no
duplicate inspection and emits only the info-level registration line.
`RouterState.warnings` records warning- or error-level output of the
loop, so that the absence of a duplicate warning is part of the model. -/

/-- One configured device binding (`{"device_id": ..., "hotkey": ...,
"name": ...}`). -/
structure DeviceBinding where
  device_id : String
  hotkey : String
  name : String
  deriving DecidableEq, Repr

/-- Observable output of the binding loop: hotkey registrations passed
to `keyboard.add_hotkey` (hotkey, captured device id) in order, and
warning/error-level log lines. -/
structure RouterState where
  registrations : List (String × String)
  warnings : List String
  deriving DecidableEq, Repr

/-- The body of the `for device in devices` loop: one unconditional
`keyboard.add_hotkey(hotkey, ...device_id...)`, no duplicate check, no
warning. -/
def bindDevice (st : RouterState) (d : DeviceBinding) : RouterState :=
  { st with registrations := st.registrations ++ [(d.hotkey, d.device_id)] }

/-- The whole binding loop over the configured device list. -/
def mainBindLoop (devices : List DeviceBinding) : RouterState :=
  devices.foldl bindDevice ⟨[], []⟩

/-! ## Interleaving model for concurrent toggles (source lines 239-261)

The source takes no lock: `toggle_device` reads
`device_states.get(device_id, False)` first, performs blocking network
I/O, and only then writes the cache.  Two hotkey callbacks for the same
device are modelled as two threads over the shared cached bit, each
executing the toggle body in two atomic-in-the-model pieces separated
by the network call, against a reliable bridge:

* `read`: `current_state = device_states.get(device_id, False)` and
  `new_state = not current_state`;
* `put`: `requests.put(..., json={"on": new_state})` succeeds and
  `device_states[device_id] = new_state` runs.
-/

/-- Program counter of one in-flight `toggle_device` call. -/
inductive TogglePc where
  | ready
  | computed
  | done
  deriving DecidableEq, Repr

/-- Local state of one in-flight `toggle_device` call: `observed` is the
`current_state` it read (meaningful once past `ready`), `commanded` the
`"on"` value of the PUT it issued (set once `done`). -/
structure ToggleThread where
  pc : TogglePc
  observed : Bool
  commanded : Option Bool
  deriving DecidableEq, Repr

/-- A fresh invocation, about to read the cache. -/
def startThread : ToggleThread := ⟨TogglePc.ready, false, none⟩

/-- One step of one in-flight call: returns the new cached bit and the
new thread state. -/
def threadStep (cache : Bool) (t : ToggleThread) : Bool × ToggleThread :=
  match t.pc with
  | TogglePc.ready => (cache, ⟨TogglePc.computed, cache, none⟩)
  | TogglePc.computed =>
      (!t.observed, ⟨TogglePc.done, t.observed, some (!t.observed)⟩)
  | TogglePc.done => (cache, t)

/-- Two concurrent `toggle_device` invocations on the same device over
the shared cached bit. -/
structure SysState where
  cache : Bool
  t1 : ToggleThread
  t2 : ToggleThread
  deriving DecidableEq, Repr

/-- Scheduler step: `true` advances the first invocation, `false` the
second. -/
def sysStep (s : SysState) (which : Bool) : SysState :=
  if which then
    let (c, t) := threadStep s.cache s.t1
    ⟨c, t, s.t2⟩
  else
    let (c, t) := threadStep s.cache s.t2
    ⟨c, s.t1, t⟩

/-- Run a schedule (a list of scheduler choices). -/
def sysRun (s : SysState) : List Bool → SysState
  | [] => s
  | w :: ws => sysRun (sysStep s w) ws

/-! ## Helper lemmas -/

/-- Reading back the key just written. -/
theorem cacheGet_write_self (c : Cache) (device_id : String) (b : Bool) :
    cacheGet (cacheWrite c device_id b) device_id = b := by
  simp [cacheGet, cacheWrite]

/-- After a PUT whose request and body parse did not raise, the cache
ends at the optimistic value whatever the confirmation read returns:
the code never writes `confirmed_state` back. -/
theorem toggle_resp_eq (r : PutResponse) (confirm : GetOutcome)
    (device_id : String) (c : Cache) :
    toggle_device (PutOutcome.resp r) confirm device_id c
      = cacheWrite c device_id (!cacheGet c device_id) := by
  cases confirm with
  | exc => rfl
  | data d =>
      unfold toggle_device
      cases h : readOn d <;> simp [h]

/-- The binding loop appends one registration per configured device and
never touches the warning channel, from any starting state. -/
theorem bindLoop_foldl (devices : List DeviceBinding) (st : RouterState) :
    devices.foldl bindDevice st
      = ⟨st.registrations ++ devices.map fun d => (d.hotkey, d.device_id),
         st.warnings⟩ := by
  induction devices generalizing st with
  | nil => simp
  | cons d ds ih =>
      simp [List.foldl_cons, bindDevice, ih, List.append_assoc]

/-- If the polling loop returns a credential, some iteration `k` (at or
after the starting one) answered with a success list, and every earlier
executed iteration did not. -/
theorem regLoop_some_success (resp : Nat → RegResponse) (req : Nat → Nat)
    (timeout : Nat) :
    ∀ fuel i elapsed u t, timeout - elapsed ≤ fuel →
      regLoop resp req timeout i elapsed = (some u, t) →
      ∃ k, i ≤ k ∧ resp k = RegResponse.success u ∧
        ∀ j, i ≤ j → j < k → regSuccess (resp j) = false := by
  intro fuel
  induction fuel with
  | zero =>
      intro i elapsed u t hfuel heq
      rw [regLoop] at heq
      have hge : ¬ elapsed < timeout := by omega
      simp [hge] at heq
  | succ fuel ih =>
      intro i elapsed u t hfuel heq
      rw [regLoop] at heq
      by_cases hlt : elapsed < timeout
      · simp only [if_pos hlt] at heq
        cases hr : resp i with
        | success v =>
            rw [hr] at heq
            simp only [Prod.mk.injEq, Option.some.injEq] at heq
            refine ⟨i, Nat.le_refl i, ?_, ?_⟩
            · rw [hr, heq.1]
            · intro j hij hji
              omega
        | exc =>
            rw [hr] at heq
            obtain ⟨k, hik, hk, hall⟩ :=
              ih (i + 1) (elapsed + (req i + 2)) u t (by omega) heq
            refine ⟨k, by omega, hk, fun j hij hjk => ?_⟩
            rcases Nat.eq_or_lt_of_le hij with hji | hji
            · rw [← hji, hr]; rfl
            · exact hall j hji hjk
        | failure s =>
            rw [hr] at heq
            obtain ⟨k, hik, hk, hall⟩ :=
              ih (i + 1) (elapsed + (req i + 2)) u t (by omega) heq
            refine ⟨k, by omega, hk, fun j hij hjk => ?_⟩
            rcases Nat.eq_or_lt_of_le hij with hji | hji
            · rw [← hji, hr]; rfl
            · exact hall j hji hjk
      · simp [hlt] at heq

/-- If the polling loop gives up (`None`), the clock at the return point
is at or past the timeout. -/
theorem regLoop_none_timeout (resp : Nat → RegResponse) (req : Nat → Nat)
    (timeout : Nat) :
    ∀ fuel i elapsed t, timeout - elapsed ≤ fuel →
      regLoop resp req timeout i elapsed = (none, t) → timeout ≤ t := by
  intro fuel
  induction fuel with
  | zero =>
      intro i elapsed t hfuel heq
      rw [regLoop] at heq
      have hge : ¬ elapsed < timeout := by omega
      rw [if_neg hge] at heq
      simp only [Prod.mk.injEq] at heq
      omega
  | succ fuel ih =>
      intro i elapsed t hfuel heq
      rw [regLoop] at heq
      by_cases hlt : elapsed < timeout
      · simp only [if_pos hlt] at heq
        cases hr : resp i with
        | success v =>
            rw [hr] at heq
            simp at heq
        | exc =>
            rw [hr] at heq
            exact ih (i + 1) (elapsed + (req i + 2)) t (by omega) heq
        | failure s =>
            rw [hr] at heq
            exact ih (i + 1) (elapsed + (req i + 2)) t (by omega) heq
      · rw [if_neg hlt] at heq
        simp only [Prod.mk.injEq] at heq
        omega

/-! ## Claim theorems -/

/-- C1 (counterexample): from an empty cache (cached value `false`) the
desired value is `true`; the PUT succeeds and the confirmation read
parses to a body reporting `"on": false`, disagreeing with `desired`;
yet the cached state after `toggle_device` is the optimistic `true`,
not the confirmation read's `false` — the code logs `confirmed_state`
but never writes it to `device_states`. -/
theorem toggle_confirm_disagree_keeps_optimistic_cex :
    cacheGet emptyCache "1" = false ∧
    readOn ⟨some ⟨some false⟩⟩ = Except.ok false ∧
    toggle_device (PutOutcome.resp ⟨200, HueBody.successAck⟩)
      (GetOutcome.data ⟨some ⟨some false⟩⟩) "1" emptyCache "1" = some true :=
  ⟨rfl, rfl, by decide⟩

/-- C1 (amended): when the PUT succeeds and the confirmation read
returns any parsed body — agreeing with `desired` or not — the cached
state after `toggle_device` is the optimistically written desired value
`!current`; the confirmed value is only logged, never written back. -/
theorem toggle_confirm_read_never_written_back (r : PutResponse)
    (d : DeviceData) (device_id : String) (c : Cache) :
    toggle_device (PutOutcome.resp r) (GetOutcome.data d) device_id c
        = cacheWrite c device_id (!cacheGet c device_id) ∧
    toggle_device (PutOutcome.resp r) (GetOutcome.data d) device_id c device_id
        = some (!cacheGet c device_id) := by
  refine ⟨toggle_resp_eq r _ device_id c, ?_⟩
  rw [toggle_resp_eq]
  simp [cacheWrite]

/-- C2: if the PUT request (or the parse of its body) raises, the
`except` block runs before any cache assignment: `toggle_device` leaves
the whole cache — in particular the entry for `device_id` — exactly as
it was. -/
theorem toggle_put_failure_cache_unchanged (confirm : GetOutcome)
    (device_id : String) (c : Cache) :
    toggle_device PutOutcome.exc confirm device_id c = c ∧
    toggle_device PutOutcome.exc confirm device_id c device_id = c device_id :=
  ⟨rfl, rfl⟩

/-- C3: if the PUT succeeds but the confirmation GET (or the parse of
its body) raises, the exception is caught after the optimistic write:
`toggle_device` returns (it is a total function of the outcomes) with
the cache holding the desired value, the negation of the pre-call
cached state. -/
theorem toggle_confirm_failure_keeps_optimistic (r : PutResponse)
    (device_id : String) (c : Cache) :
    toggle_device (PutOutcome.resp r) GetOutcome.exc device_id c
        = cacheWrite c device_id (!cacheGet c device_id) ∧
    toggle_device (PutOutcome.resp r) GetOutcome.exc device_id c device_id
        = some (!cacheGet c device_id) := by
  refine ⟨rfl, ?_⟩
  simp [toggle_device, cacheWrite]

/-- C4: against a reliable bridge (every PUT succeeds, every
confirmation read reports the commanded value), `n` sequential toggles
flip the cached state `n` times: the final cached value is the initial
one XORed with the parity of `n`. -/
theorem toggle_reliable_parity (device_id : String) (c : Cache) (n : Nat) :
    cacheGet (toggleReliableN device_id n c) device_id
      = xor (cacheGet c device_id) (decide (n % 2 = 1)) := by
  induction n generalizing c with
  | zero => simp [toggleReliableN]
  | succ n ih =>
      rw [toggleReliableN, ih]
      rw [reliablePut, toggle_resp_eq, cacheGet_write_self]
      rcases Nat.mod_two_eq_zero_or_one n with h | h
      · have h2 : (n + 1) % 2 = 1 := by omega
        simp [h, h2]
      · have h2 : (n + 1) % 2 = 0 := by omega
        simp [h, h2]

/-- C10: the only success criterion for the state-change command is
that `requests.put` and `res.json()` did not raise: for every completed
PUT — any HTTP status, any parsed body, including a bridge error
object — the cache is set to the desired value, and when the request or
parse raises the cache write never happens. -/
theorem toggle_put_success_criterion (status : Nat) (body : HueBody)
    (confirm : GetOutcome) (device_id : String) (c : Cache) :
    toggle_device (PutOutcome.resp ⟨status, body⟩) confirm device_id c device_id
        = some (!cacheGet c device_id) ∧
    toggle_device PutOutcome.exc confirm device_id c = c := by
  refine ⟨?_, rfl⟩
  rw [toggle_resp_eq]
  simp [cacheWrite]

/-- C7: `initialize_state` is a total function of the fetch outcome (it
never raises): a raising fetch, and a parsed body without a `"state"`
object (whose `KeyError` is caught by the same `except`), both store
`false`; a parsed body with a `"state"` object stores its `"on"` value
(`.get("on", False)`), in particular the fetched value when present. -/
theorem initialize_state_fail_safe (device_id : String) (c : Cache)
    (o : Option Bool) (b : Bool) :
    initialize_state GetOutcome.exc device_id c device_id = some false ∧
    initialize_state (GetOutcome.data ⟨none⟩) device_id c device_id = some false ∧
    initialize_state (GetOutcome.data ⟨some ⟨o⟩⟩) device_id c device_id
        = some (o.getD false) ∧
    initialize_state (GetOutcome.data ⟨some ⟨some b⟩⟩) device_id c device_id
        = some b := by
  refine ⟨?_, ?_, ?_, ?_⟩ <;> simp [initialize_state, readOn, cacheWrite]

/-- C8 (counterexample): a response that parses to `{"state": {}}` —
missing the expected `"on"` state field — is read as a *successful*
`False` by `data["state"].get("on", False)`, not surfaced as an error;
seeding with it stores `false` through the success path. -/
theorem readOn_missing_on_defaults_cex :
    readOn ⟨some ⟨none⟩⟩ = Except.ok false ∧
    initialize_state (GetOutcome.data ⟨some ⟨none⟩⟩) "1" emptyCache "1"
        = some false :=
  ⟨rfl, by decide⟩

/-- C8 (amended): a parsed device response with no `"state"` object
raises `KeyError` (the error path of the read); but a parsed response
whose `"state"` object merely lacks the `"on"` field is read as a
successful default `false`, not surfaced as a protocol error; when the
field is present its value is read. -/
theorem bridge_read_missing_field_behavior (b : Bool) :
    readOn ⟨none⟩ = Except.error () ∧
    readOn ⟨some ⟨none⟩⟩ = Except.ok false ∧
    readOn ⟨some ⟨some b⟩⟩ = Except.ok b :=
  ⟨rfl, rfl, rfl⟩

/-- C9 (counterexample): a configuration with two bindings for the same
`device_id` `"1"`: the binding loop of `main` registers both hotkeys
and emits no warning (empty warning channel) — it is silent about the
duplicate. -/
theorem main_duplicate_binding_cex :
    mainBindLoop [⟨"1", "ctrl+shift+l", "Lamp"⟩, ⟨"1", "ctrl+shift+m", "Lamp"⟩]
      = ⟨[("ctrl+shift+l", "1"), ("ctrl+shift+m", "1")], []⟩ := by
  decide

/-- C9 (amended): the binding loop of `main` registers a hotkey for
every configured binding, in order and unconditionally — duplicate
`device_id` values included — and emits no warning and no rejection. -/
theorem main_binds_all_without_warning (devices : List DeviceBinding) :
    (mainBindLoop devices).registrations
        = devices.map (fun d => (d.hotkey, d.device_id)) ∧
    (mainBindLoop devices).warnings = [] := by
  unfold mainBindLoop
  rw [bindLoop_foldl]
  simp

/-- C5 (counterexample): with the cached bit `false` and two concurrent
`toggle_device` invocations on the same device, the schedule running
both reads before either PUT makes both invocations observe the same
pre-toggle state `false` and both command the same value `true`; the
source takes no lock, so no interleaving is ruled out. -/
theorem toggle_same_device_race_cex :
    (sysRun ⟨false, startThread, startThread⟩ [true, false, true, false]).t1.pc
        = TogglePc.done ∧
    (sysRun ⟨false, startThread, startThread⟩ [true, false, true, false]).t2.pc
        = TogglePc.done ∧
    (sysRun ⟨false, startThread, startThread⟩ [true, false, true, false]).t1.observed
        = false ∧
    (sysRun ⟨false, startThread, startThread⟩ [true, false, true, false]).t2.observed
        = false ∧
    (sysRun ⟨false, startThread, startThread⟩ [true, false, true, false]).t1.commanded
        = some true ∧
    (sysRun ⟨false, startThread, startThread⟩ [true, false, true, false]).t2.commanded
        = some true := by
  decide

/-- C5 (amended): `toggle_device` invocations for the same `device_id`
are not serialized — the source contains no per-device lock or queue —
and an interleaving of two concurrent invocations exists in which both
read the same pre-toggle cached state and command the same new value. -/
theorem toggle_same_device_race_exists :
    ∃ sched : List Bool,
      (sysRun ⟨false, startThread, startThread⟩ sched).t1.pc = TogglePc.done ∧
      (sysRun ⟨false, startThread, startThread⟩ sched).t2.pc = TogglePc.done ∧
      (sysRun ⟨false, startThread, startThread⟩ sched).t1.observed
          = (sysRun ⟨false, startThread, startThread⟩ sched).t2.observed ∧
      (sysRun ⟨false, startThread, startThread⟩ sched).t1.commanded
          = (sysRun ⟨false, startThread, startThread⟩ sched).t2.commanded ∧
      (sysRun ⟨false, startThread, startThread⟩ sched).t1.commanded = some true :=
  ⟨[true, false, true, false], by decide⟩

/-- C6: for the polling loop of `register_hue_username`: (1) a returned
credential comes from some iteration whose response was a success list,
and every earlier iteration's response was not one; (2) a `None` return
happens only with the clock at or past the timeout; (3) an iteration
seeing a success list returns its credential immediately, before the
2-second sleep; (4) an iteration seeing an error object or a raised
request/parse continues with the next poll 2 seconds (plus request
time) later. -/
theorem register_polling_correct (resp : Nat → RegResponse) (req : Nat → Nat)
    (timeout : Nat) :
    (∀ u t, register_hue_username resp req timeout = (some u, t) →
      ∃ k, resp k = RegResponse.success u ∧
        ∀ j, j < k → regSuccess (resp j) = false) ∧
    (∀ t, register_hue_username resp req timeout = (none, t) → timeout ≤ t) ∧
    (∀ i elapsed u, elapsed < timeout → resp i = RegResponse.success u →
      regLoop resp req timeout i elapsed = (some u, elapsed + req i)) ∧
    (∀ i elapsed, elapsed < timeout → regSuccess (resp i) = false →
      regLoop resp req timeout i elapsed
        = regLoop resp req timeout (i + 1) (elapsed + (req i + 2))) := by
  refine ⟨?_, ?_, ?_, ?_⟩
  · intro u t heq
    obtain ⟨k, _, hk, hall⟩ :=
      regLoop_some_success resp req timeout timeout 0 0 u t (by omega) heq
    exact ⟨k, hk, fun j hj => hall j (Nat.zero_le j) hj⟩
  · intro t heq
    exact regLoop_none_timeout resp req timeout timeout 0 0 t (by omega) heq
  · intro i elapsed u hlt hr
    rw [regLoop, if_pos hlt, hr]
  · intro i elapsed hlt hns
    rw [regLoop, if_pos hlt]
    cases hr : resp i with
    | success v =>
        rw [hr] at hns
        exact absurd hns (by simp [regSuccess])
    | exc => simp [hr]
    | failure s => simp [hr]

/-- Concrete polling trace for the witness below: iteration 0 answers
with an error object, every later iteration with a success list. -/
def sampleRegTrace : Nat → RegResponse
  | 0 => RegResponse.failure "link button not pressed"
  | _ => RegResponse.success "newdeveloper"

/-- C6 (witness): the polling theorem applied to the concrete trace,
timeout 30 and one-second requests: iteration 0 is at clock 0 < 30, its
response is not a success, and the loop steps to iteration 1 at clock
3. -/
theorem register_polling_correct_witness :
    (0 : Nat) < 30 ∧ regSuccess (sampleRegTrace 0) = false ∧
    regLoop sampleRegTrace (fun _ => 1) 30 0 0
      = regLoop sampleRegTrace (fun _ => 1) 30 1 3 :=
  ⟨by decide, by decide,
    (register_polling_correct sampleRegTrace (fun _ => 1) 30).2.2.2 0 0
      (by decide) (by decide)⟩

end Hueshortcut
